import Mathlib

/-!
Verification development for the hostel-chow-hub repository.

Part 1 embeds the weekly menu resolution algorithm of
`src/pages/FoodMenu.tsx` (the `menusByDay` memo): a static fallback
weekly schedule is merged with fetched, date-stamped scheduled menu
records.  Calendar dates are modelled as day numbers counted from
1970-01-01 (which was a Thursday, so the JavaScript `Date.getDay` of a
date `d` is `(d + 4) % 7`).  The JavaScript object
`Record<string, Record<string, string>>` holding the grouped menus is
modelled as a function `String → String → Option String` (day name to
meal name to displayed text, `none` for an absent key).

Part 2 embeds the session/profile operations of
`src/contexts/AuthContext.tsx` (`login`, `updateProfile`,
`toggleTheme`) as state transformers.  The outcome of each remote call
is passed in as an explicit parameter (`none` for success, `some msg`
for a failure with message `msg`), toast notifications are collected in
a list, and the `dark` CSS class on the document element is a boolean
field of the state.
-/

namespace HostelChowHub

/-- The items payload of a scheduled menu record: either a flat array of
strings, or an object mapping meal types to arrays of strings
(`Array.isArray(menu.items)` distinguishes the two in the source). -/
inductive MenuItems where
  | flat (entries : List String)
  | keyed (entries : List (String × List String))
deriving DecidableEq

/-- A `ScheduledMenu` row as fetched from the `scheduled_menus` table.
The `date` is an ISO calendar date, modelled as the number of days since
1970-01-01. -/
structure ScheduledMenu where
  id : String
  date : Nat
  meal_type : String
  items : MenuItems
  published : Bool
deriving DecidableEq

/-- The `days` array used both by `getCurrentDay` and inside the
`menusByDay` memo: index 0 is Sunday, matching `Date.getDay`. -/
def days : List String :=
  ["sunday", "monday", "tuesday", "wednesday", "thursday", "friday", "saturday"]

/-- JavaScript `new Date(date).getDay()` for a date given as days since
1970-01-01 (a Thursday, hence the offset 4). -/
def getDayIndex (date : Nat) : Nat := (date + 4) % 7

/-- `days[dayIndex]` for the record's date. -/
def dayNameOf (date : Nat) : String := days.getD (getDayIndex date) ""

/-- One entry of the compiled-in fallback weekly menu. -/
structure FallbackDay where
  breakfast : String
  lunch : String
  snacks : String
  dinner : String
deriving DecidableEq

/-- The `fallbackWeeklyMenu` constant of `FoodMenu.tsx`, keyed by day
name; `none` for a key that is not one of the seven day names. -/
def fallbackWeeklyMenu (day : String) : Option FallbackDay :=
  if day = "monday" then
    some ⟨"Idli, Vada, Sambar, Coconut Chutney, Coffee/Tea",
          "Rice, Dal, Aloo Gobi, Chapati, Curd, Pickle",
          "Biscuits, Coffee/Tea",
          "Chapati, Paneer Butter Masala, Jeera Rice, Salad"⟩
  else if day = "tuesday" then
    some ⟨"Poha, Boiled Eggs, Bread, Jam, Coffee/Tea",
          "Rice, Rajma, Mixed Vegetable, Chapati, Raita",
          "Samosa, Coffee/Tea",
          "Chapati, Chicken Curry, Rice, Salad, Ice Cream"⟩
  else if day = "wednesday" then
    some ⟨"Dosa, Coconut Chutney, Upma, Coffee/Tea",
          "Rice, Dal Makhani, Bhindi Fry, Chapati, Curd",
          "Vada Pav, Coffee/Tea",
          "Chapati, Egg Curry, Veg Pulao, Raita"⟩
  else if day = "thursday" then
    some ⟨"Paratha, Curd, Fruits, Coffee/Tea",
          "Rice, Kadhi, Aloo Matar, Chapati, Pickle",
          "Kachori, Coffee/Tea",
          "Chapati, Dal Tadka, Veg Biryani, Salad"⟩
  else if day = "friday" then
    some ⟨"Bread Omelette, Cornflakes, Milk, Coffee/Tea",
          "Rice, Chole, Aloo Jeera, Chapati, Raita",
          "Pav Bhaji, Coffee/Tea",
          "Chapati, Mix Veg Curry, Fried Rice, Gulab Jamun"⟩
  else if day = "saturday" then
    some ⟨"Puri, Bhaji, Sprouts, Coffee/Tea",
          "Rice, Dal Fry, Gobi Matar, Chapati, Curd",
          "Bread Pakora, Coffee/Tea",
          "Chapati, Fish Curry, Jeera Rice, Salad"⟩
  else if day = "sunday" then
    some ⟨"Chole Bhature, Fruits, Coffee/Tea",
          "Rice, Sambar, Rasam, Chapati, Papad, Sweet",
          "French Fries, Coffee/Tea",
          "Chapati, Mutton/Paneer Curry, Pulao, Raita, Ice Cream"⟩
  else none

/-- Reading one meal slot of a (shallow-copied) fallback day object. -/
def slotOf (fb : FallbackDay) (meal : String) : Option String :=
  if meal = "breakfast" then some fb.breakfast
  else if meal = "lunch" then some fb.lunch
  else if meal = "snacks" then some fb.snacks
  else if meal = "dinner" then some fb.dinner
  else none

/-- The `grouped` object right after the initialization loop
`days.forEach(day => grouped[day] = {...fallbackWeeklyMenu[day]})`. -/
def initGrouped : String → String → Option String := fun day meal =>
  match fallbackWeeklyMenu day with
  | some fb => slotOf fb meal
  | none => none

/-- The `itemsString` expression of the source: a flat array is joined
with a comma-space; an object payload is looked up at the record's own
meal type and that array joined; a missing key yields the empty
string. -/
def itemsString (items : MenuItems) (mealType : String) : String :=
  match items with
  | .flat entries => String.intercalate ", " entries
  | .keyed entries =>
    match entries.lookup mealType with
    | some xs => String.intercalate ", " xs
    | none => ""

/-- The body of the `relevantMenus.forEach` loop: guard
`menu.items && menu.meal_type` (the items payload is always an object
or array here, so only the meal type can be falsy), compute the display
string, and when it is non-empty overwrite exactly the record's meal
slot in the record's weekday bucket. -/
def applyMenu (grouped : String → String → Option String) (menu : ScheduledMenu) :
    String → String → Option String :=
  if menu.meal_type ≠ "" then
    if itemsString menu.items menu.meal_type ≠ "" then
      fun day meal =>
        if day = dayNameOf menu.date then
          if meal = menu.meal_type then some (itemsString menu.items menu.meal_type)
          else grouped day meal
        else grouped day meal
    else grouped
  else grouped

/-- The `menusByDay` memo of `FoodMenu.tsx`: start from the fallback,
and when the fetched list is non-empty, filter it to records dated today
or later, sort those ascending by date (JavaScript sort is stable, so a
stable insertion sort models it), and apply each in order. -/
def menusByDay (scheduledMenus : List ScheduledMenu) (today : Nat) :
    String → String → Option String :=
  if scheduledMenus.length > 0 then
    let relevantMenus := scheduledMenus.filter (fun menu => today ≤ menu.date)
    let sorted := relevantMenus.insertionSort (fun a b => a.date ≤ b.date)
    sorted.foldl applyMenu initGrouped
  else initGrouped

/-- The length guard in `menusByDay` is redundant: for an empty fetched
list the filter-sort-fold pipeline also returns the fallback copy. -/
theorem menusByDay_eq_fold (l : List ScheduledMenu) (today : Nat) :
    menusByDay l today =
      ((l.filter (fun menu => today ≤ menu.date)).insertionSort
        (fun a b => a.date ≤ b.date)).foldl applyMenu initGrouped := by
  unfold menusByDay
  split
  · rfl
  · rename_i h
    have hl : l = [] := by
      cases l with
      | nil => rfl
      | cons a l => exact absurd (Nat.succ_pos _) h
    subst hl
    rfl

/-- Applying one record leaves every slot other than the record's own
weekday bucket and meal type unchanged. -/
theorem applyMenu_preserve (g : String → String → Option String) (m : ScheduledMenu)
    (d meal : String) (h : d ≠ dayNameOf m.date ∨ meal ≠ m.meal_type) :
    applyMenu g m d meal = g d meal := by
  unfold applyMenu
  split
  · split
    · rcases h with h | h
      · simp [h]
      · by_cases hd : d = dayNameOf m.date <;> simp [hd, h]
    · rfl
  · rfl

/-- Applying a record with a non-empty meal type and a non-empty computed
display string writes that string into the record's slot. -/
theorem applyMenu_write (g : String → String → Option String) (m : ScheduledMenu)
    (h1 : m.meal_type ≠ "") (h2 : itemsString m.items m.meal_type ≠ "") :
    applyMenu g m (dayNameOf m.date) m.meal_type = some (itemsString m.items m.meal_type) := by
  simp [applyMenu, h1, h2]

/-- A record whose computed display string is empty is skipped: the
grouped state is returned unchanged. -/
theorem applyMenu_skip (g : String → String → Option String) (m : ScheduledMenu)
    (h : itemsString m.items m.meal_type = "") :
    applyMenu g m = g := by
  unfold applyMenu
  split
  · simp [h]
  · rfl

/-- Folding records none of which map to day `d` leaves day `d`
untouched. -/
theorem foldl_applyMenu_preserve (l : List ScheduledMenu) (d meal : String)
    (h : ∀ m ∈ l, dayNameOf m.date ≠ d) :
    ∀ g, l.foldl applyMenu g d meal = g d meal := by
  induction l with
  | nil => intro g; rfl
  | cons m l ih =>
    intro g
    rw [List.foldl_cons, ih (fun x hx => h x (List.mem_cons_of_mem _ hx))]
    exact applyMenu_preserve g m d meal (Or.inl (h m (List.mem_cons_self _ _)).symm)

/-- Applying a record never removes a populated slot. -/
theorem applyMenu_isSome (g : String → String → Option String) (m : ScheduledMenu)
    (d meal : String) (h : (g d meal).isSome = true) :
    ((applyMenu g m) d meal).isSome = true := by
  unfold applyMenu
  split
  · split
    · by_cases hd : d = dayNameOf m.date
      · subst hd
        by_cases hm : meal = m.meal_type <;> simp [hm, h]
      · simp [hd, h]
    · exact h
  · exact h

/-- Folding any record list never removes a populated slot. -/
theorem foldl_applyMenu_isSome (l : List ScheduledMenu) (d meal : String) :
    ∀ g, (g d meal).isSome = true → ((l.foldl applyMenu g) d meal).isSome = true := by
  induction l with
  | nil => intro g h; exact h
  | cons m l ih =>
    intro g h
    rw [List.foldl_cons]
    exact ih _ (applyMenu_isSome g m d meal h)

/-- Every one of the seven fallback days populates all four meal
slots. -/
theorem initGrouped_isSome :
    ∀ d ∈ days, ∀ meal ∈ ["breakfast", "lunch", "snacks", "dinner"],
      (initGrouped d meal).isSome = true := by decide

/-- C1: the resolver applies a published record if and only if its date
is on or after today: a past-dated record never alters any slot (it can
be deleted from the fetched list without changing any resolved value),
while a record dated arbitrarily many days in the future stays eligible
and overwrites its weekday bucket. -/
theorem menusByDay_past_ignored_future_eligible :
    (∀ (l₁ l₂ : List ScheduledMenu) (m : ScheduledMenu) (today : Nat),
        m.published = true → m.date < today →
        ∀ d meal, menusByDay (l₁ ++ m :: l₂) today d meal = menusByDay (l₁ ++ l₂) today d meal)
    ∧ (∀ (m : ScheduledMenu) (today k : Nat),
        m.published = true → m.date = today + k →
        m.meal_type ≠ "" → itemsString m.items m.meal_type ≠ "" →
        menusByDay [m] today (dayNameOf m.date) m.meal_type
          = some (itemsString m.items m.meal_type)) := by
  constructor
  · intro l₁ l₂ m today _ hpast d meal
    rw [menusByDay_eq_fold, menusByDay_eq_fold]
    have hfil : (l₁ ++ m :: l₂).filter (fun menu => today ≤ menu.date)
        = (l₁ ++ l₂).filter (fun menu => today ≤ menu.date) := by
      simp [List.filter_append, List.filter_cons, Nat.not_le.mpr hpast]
    rw [hfil]
  · intro m today k _ hdate h1 h2
    rw [menusByDay_eq_fold]
    have hfil : [m].filter (fun menu => today ≤ menu.date) = [m] := by
      simp [hdate]
    rw [hfil]
    simp only [List.insertionSort, List.orderedInsert, List.foldl]
    exact applyMenu_write initGrouped m h1 h2

/-- Witness for C1 at concrete inputs: with today = 10, a record dated 9
changes nothing, and a record dated 110 (100 days out) overwrites its
weekday lunch slot. -/
theorem menusByDay_past_ignored_future_eligible_witness :
    (∀ d meal,
      menusByDay [⟨"p", 9, "dinner", .flat ["Stale"], true⟩] 10 d meal
        = menusByDay [] 10 d meal)
    ∧ menusByDay [⟨"f", 110, "lunch", .flat ["Rice", "Dal"], true⟩] 10
        (dayNameOf 110) "lunch" = some "Rice, Dal" :=
  ⟨fun d meal =>
    menusByDay_past_ignored_future_eligible.1 [] [] ⟨"p", 9, "dinner", .flat ["Stale"], true⟩ 10
      rfl (by decide) d meal,
   menusByDay_past_ignored_future_eligible.2 ⟨"f", 110, "lunch", .flat ["Rice", "Dal"], true⟩ 10 100
      rfl rfl (by decide) (by decide)⟩

/-- C2: a day name reached by no current-or-future fetched record keeps
its fallback entry exactly, in every meal slot; in particular an empty
fetched list leaves every day at the fallback. -/
theorem menusByDay_fallback_when_no_match (l : List ScheduledMenu) (today : Nat) (d : String)
    (h : ∀ m ∈ l, today ≤ m.date → dayNameOf m.date ≠ d) :
    ∀ meal, menusByDay l today d meal = initGrouped d meal := by
  intro meal
  rw [menusByDay_eq_fold]
  refine foldl_applyMenu_preserve _ d meal (fun m hm => ?_) initGrouped
  rw [List.mem_insertionSort] at hm
  have hmem := List.mem_filter.mp hm
  exact h m hmem.1 (of_decide_eq_true hmem.2)

/-- Witness for C2: with one record dated in the past, Monday keeps all
four fallback strings, and the empty list leaves Monday untouched as
well. -/
theorem menusByDay_fallback_when_no_match_witness :
    (∀ meal,
      menusByDay [⟨"p", 9, "lunch", .flat ["Something"], true⟩] 10 "monday" meal
        = initGrouped "monday" meal)
    ∧ ∀ meal, menusByDay [] 10 "monday" meal = initGrouped "monday" meal :=
  ⟨menusByDay_fallback_when_no_match [⟨"p", 9, "lunch", .flat ["Something"], true⟩] 10 "monday"
      (by decide),
   menusByDay_fallback_when_no_match [] 10 "monday" (by simp)⟩

/-- Resolving a single record dated today or later applies exactly that
record on top of the fallback. -/
theorem menusByDay_singleton (m : ScheduledMenu) (today : Nat) (h : today ≤ m.date) :
    menusByDay [m] today = applyMenu initGrouped m := by
  rw [menusByDay_eq_fold]
  have hfil : [m].filter (fun menu => today ≤ menu.date) = [m] := by simp [h]
  rw [hfil]
  rfl

/-- C3: the display string of an applied record is the comma-space join
of a flat items payload, or the join of the entries under the record's
own meal-type key for an object payload; a record whose computed string
is empty is skipped entirely, leaving every slot (fallback or previously
applied) untouched. -/
theorem applyMenu_itemsString_spec (g : String → String → Option String)
    (m : ScheduledMenu) (hmt : m.meal_type ≠ "") :
    (∀ xs, m.items = .flat xs → String.intercalate ", " xs ≠ "" →
        applyMenu g m (dayNameOf m.date) m.meal_type = some (String.intercalate ", " xs))
    ∧ (∀ kv xs, m.items = .keyed kv → kv.lookup m.meal_type = some xs →
        String.intercalate ", " xs ≠ "" →
        applyMenu g m (dayNameOf m.date) m.meal_type = some (String.intercalate ", " xs))
    ∧ (itemsString m.items m.meal_type = "" →
        ∀ d meal, applyMenu g m d meal = g d meal) := by
  refine ⟨?_, ?_, ?_⟩
  · intro xs hflat hne
    have his : itemsString m.items m.meal_type = String.intercalate ", " xs := by
      rw [hflat]; rfl
    rw [applyMenu_write g m hmt (by rw [his]; exact hne), his]
  · intro kv xs hkeyed hlook hne
    have his : itemsString m.items m.meal_type = String.intercalate ", " xs := by
      rw [hkeyed]; simp [itemsString, hlook]
    rw [applyMenu_write g m hmt (by rw [his]; exact hne), his]
  · intro hempty d meal
    rw [applyMenu_skip g m hempty]

/-- Witness for C3: a flat payload joins to a comma-space string, an
object payload joins only its own meal-type key, and a record whose key
is missing resolves to the empty string and is skipped. -/
theorem applyMenu_itemsString_spec_witness :
    applyMenu initGrouped ⟨"b", 3, "breakfast", .flat ["Tea", "Toast"], true⟩
      (dayNameOf 3) "breakfast" = some "Tea, Toast"
    ∧ applyMenu initGrouped ⟨"k", 3, "lunch", .keyed [("lunch", ["Rice"]), ("dinner", ["Soup"])], true⟩
      (dayNameOf 3) "lunch" = some "Rice"
    ∧ ∀ d meal,
        applyMenu initGrouped ⟨"e", 3, "snacks", .keyed [("lunch", ["Rice"])], true⟩ d meal
          = initGrouped d meal :=
  ⟨(applyMenu_itemsString_spec initGrouped ⟨"b", 3, "breakfast", .flat ["Tea", "Toast"], true⟩
      (by decide)).1 ["Tea", "Toast"] rfl (by decide),
   (applyMenu_itemsString_spec initGrouped
      ⟨"k", 3, "lunch", .keyed [("lunch", ["Rice"]), ("dinner", ["Soup"])], true⟩
      (by decide)).2.1 [("lunch", ["Rice"]), ("dinner", ["Soup"])] ["Rice"] rfl (by decide)
      (by decide),
   (applyMenu_itemsString_spec initGrouped ⟨"e", 3, "snacks", .keyed [("lunch", ["Rice"])], true⟩
      (by decide)).2.2 (by decide)⟩

/-- C4: applying one record overwrites only the meal slot it names in
the weekday bucket of its date; every other slot of that day and every
slot of every other day keeps its previous value.  In particular a
record dated today with meal type lunch and items keyed lunch to Rice
and Dal resolves that weekday's lunch to the joined string while the
remaining slots stay at the fallback. -/
theorem applyMenu_frame :
    (∀ (g : String → String → Option String) (m : ScheduledMenu) (d meal : String),
        d ≠ dayNameOf m.date ∨ meal ≠ m.meal_type → applyMenu g m d meal = g d meal)
    ∧ (∀ (today : Nat) (i : String),
        menusByDay [⟨i, today, "lunch", .keyed [("lunch", ["Rice", "Dal"])], true⟩] today
          (dayNameOf today) "lunch" = some "Rice, Dal"
        ∧ (∀ meal, meal ≠ "lunch" →
            menusByDay [⟨i, today, "lunch", .keyed [("lunch", ["Rice", "Dal"])], true⟩] today
              (dayNameOf today) meal = initGrouped (dayNameOf today) meal)
        ∧ (∀ d meal, d ≠ dayNameOf today →
            menusByDay [⟨i, today, "lunch", .keyed [("lunch", ["Rice", "Dal"])], true⟩] today
              d meal = initGrouped d meal)) := by
  constructor
  · exact fun g m d meal h => applyMenu_preserve g m d meal h
  · intro today i
    have hsing := menusByDay_singleton
      ⟨i, today, "lunch", .keyed [("lunch", ["Rice", "Dal"])], true⟩ today (Nat.le_refl today)
    refine ⟨?_, ?_, ?_⟩
    · rw [hsing]
      exact applyMenu_write _ _ (show ("lunch" : String) ≠ "" by decide)
        (show itemsString (.keyed [("lunch", ["Rice", "Dal"])]) "lunch" ≠ "" by decide)
    · intro meal hm
      rw [hsing]
      exact applyMenu_preserve _ _ _ _ (Or.inr hm)
    · intro d meal hd
      rw [hsing]
      exact applyMenu_preserve _ _ _ _ (Or.inl hd)

/-- Witness for C4: a record never touches foreign slots, and the
concrete lunch record resolves to the joined string while breakfast on
the same day keeps its fallback text. -/
theorem applyMenu_frame_witness :
    applyMenu initGrouped ⟨"x", 4, "dinner", .flat ["Soup"], true⟩ "monday" "breakfast"
      = initGrouped "monday" "breakfast"
    ∧ menusByDay [⟨"y", 4, "lunch", .keyed [("lunch", ["Rice", "Dal"])], true⟩] 4
        (dayNameOf 4) "lunch" = some "Rice, Dal"
    ∧ menusByDay [⟨"y", 4, "lunch", .keyed [("lunch", ["Rice", "Dal"])], true⟩] 4
        (dayNameOf 4) "breakfast" = initGrouped (dayNameOf 4) "breakfast" :=
  ⟨applyMenu_frame.1 initGrouped ⟨"x", 4, "dinner", .flat ["Soup"], true⟩ "monday" "breakfast"
      (Or.inr (by decide)),
   (applyMenu_frame.2 4 "y").1,
   (applyMenu_frame.2 4 "y").2.1 "breakfast" (by decide)⟩

/-- C5: among two current-or-future records that target the same weekday
bucket and the same meal type, the chronologically later one determines
the final slot content (last write wins). -/
theorem menusByDay_last_write_wins (l : List ScheduledMenu) (A B : ScheduledMenu) (today : Nat)
    (hl : ∀ x ∈ l, x.date < today)
    (hA : today ≤ A.date) (hAB : A.date ≤ B.date)
    (hday : dayNameOf A.date = dayNameOf B.date) (hmeal : A.meal_type = B.meal_type)
    (hmt : B.meal_type ≠ "") (hs : itemsString B.items B.meal_type ≠ "") :
    menusByDay (l ++ [A, B]) today (dayNameOf B.date) B.meal_type
      = some (itemsString B.items B.meal_type) := by
  rw [menusByDay_eq_fold]
  have hfil : (l ++ [A, B]).filter (fun menu => today ≤ menu.date) = [A, B] := by
    rw [List.filter_append]
    have h1 : l.filter (fun menu => today ≤ menu.date) = [] :=
      List.filter_eq_nil_iff.mpr (fun x hx => by simp [Nat.not_le.mpr (hl x hx)])
    rw [h1]
    simp [hA, Nat.le_trans hA hAB]
  rw [hfil]
  have hsort : [A, B].insertionSort (fun a b => a.date ≤ b.date) = [A, B] := by
    simp [List.insertionSort, List.orderedInsert, hAB]
  rw [hsort]
  simp only [List.foldl_cons, List.foldl_nil]
  exact applyMenu_write (applyMenu initGrouped A) B hmt hs

/-- Witness for C5: two lunch records one week apart hit the same
weekday bucket; the later one wins over the earlier one and over a
past-dated record. -/
theorem menusByDay_last_write_wins_witness :
    menusByDay [⟨"p", 5, "lunch", .flat ["Past"], true⟩,
                ⟨"a", 10, "lunch", .flat ["Old"], true⟩,
                ⟨"b", 17, "lunch", .flat ["New"], true⟩] 10
      (dayNameOf 17) "lunch" = some "New" :=
  menusByDay_last_write_wins [⟨"p", 5, "lunch", .flat ["Past"], true⟩]
    ⟨"a", 10, "lunch", .flat ["Old"], true⟩ ⟨"b", 17, "lunch", .flat ["New"], true⟩ 10
    (by decide) (by decide) (by decide) (by decide) rfl (by decide) (by decide)

/-- C6: for every fetched list, every one of the seven day names has all
four meal slots populated in the resolved menu: the fallback provides
total coverage and applying a record only overwrites, never removes, a
slot. -/
theorem menusByDay_slots_populated (l : List ScheduledMenu) (today : Nat) (d meal : String)
    (hd : d ∈ days) (hmeal : meal ∈ ["breakfast", "lunch", "snacks", "dinner"]) :
    (menusByDay l today d meal).isSome = true := by
  rw [menusByDay_eq_fold]
  exact foldl_applyMenu_isSome _ d meal initGrouped (initGrouped_isSome d hd meal hmeal)

/-- Witness for C6: the Wednesday snacks slot is populated even with a
record carrying an unknown meal type. -/
theorem menusByDay_slots_populated_witness :
    (menusByDay [⟨"z", 12, "weird", .flat ["Stuff"], true⟩] 12 "wednesday" "snacks").isSome
      = true :=
  menusByDay_slots_populated [⟨"z", 12, "weird", .flat ["Stuff"], true⟩] 12 "wednesday" "snacks"
    (by decide) (by decide)

/-- The local `User` record of `AuthContext.tsx`.  Optional fields are
`Option`; the theme is kept as a raw string so that the claim that the
toggle only ever produces the two legal values is not true by typing. -/
structure User where
  id : String
  name : String
  email : String
  roomNumber : String
  regNumber : String
  phoneNumber : Option String
  avatar : Option String
  theme : Option String
  isAdmin : Option Bool
deriving DecidableEq

/-- A toast notification as issued through `useToast`. -/
structure Toast where
  title : String
  description : String
  variant : Option String
deriving DecidableEq

/-- The provider state: the `user` and `isLoading` React states, the
list of toasts shown so far, and whether the `dark` class is set on the
document element. -/
structure AuthState where
  user : Option User
  isLoading : Bool
  toasts : List Toast
  darkClass : Bool
deriving DecidableEq

/-- The `login` function: sets the loading flag, performs the remote
sign-in (its outcome is the `signInError` parameter), toasts success or
failure, resets the loading flag in the `finally` block, and rethrows
the error (the second component) on failure.  The user state is written
only by the auth-state listener, never by `login` itself. -/
def login (signInError : Option String) (s : AuthState) : AuthState × Option String :=
  let s1 : AuthState := { s with isLoading := true }
  match signInError with
  | none =>
    ({ s1 with
        toasts := s1.toasts ++
          [⟨"Login successful", "Welcome back to the Hostel Mess Management System", none⟩],
        isLoading := false }, none)
  | some e =>
    ({ s1 with
        toasts := s1.toasts ++ [⟨"Login failed", e, some "destructive"⟩],
        isLoading := false }, some e)

/-- A `Partial<User>` argument to `updateProfile`: `some` marks a field
key that is present in the partial object. -/
structure UserPatch where
  id : Option String
  name : Option String
  email : Option String
  roomNumber : Option String
  regNumber : Option String
  phoneNumber : Option String
  avatar : Option String
  theme : Option String
  isAdmin : Option Bool
deriving DecidableEq

/-- JavaScript truthiness of an optional string field: present and
non-empty. -/
def truthyStr (v : Option String) : Bool :=
  match v with
  | some s => s ≠ ""
  | none => false

/-- The `profileUpdates` object sent to the remote `profiles` table:
only truthy name, phone number and avatar are included, and the theme
only when it is exactly light or dark. -/
structure ProfileRow where
  name : Option String
  phone_number : Option String
  avatar : Option String
  theme : Option String
deriving DecidableEq

/-- Builds the remote `profileUpdates` payload from the partial. -/
def profileRowOf (updates : UserPatch) : ProfileRow :=
  { name := if truthyStr updates.name then updates.name else none,
    phone_number := if truthyStr updates.phoneNumber then updates.phoneNumber else none,
    avatar := if truthyStr updates.avatar then updates.avatar else none,
    theme :=
      if truthyStr updates.theme ∧ (updates.theme = some "light" ∨ updates.theme = some "dark")
      then updates.theme else none }

/-- The local merge `{...prev, ...updates}`: every key present in the
partial overrides the previous value, whether or not the remote payload
carried it. -/
def mergeUser (prev : User) (updates : UserPatch) : User :=
  { id := updates.id.getD prev.id,
    name := updates.name.getD prev.name,
    email := updates.email.getD prev.email,
    roomNumber := updates.roomNumber.getD prev.roomNumber,
    regNumber := updates.regNumber.getD prev.regNumber,
    phoneNumber := match updates.phoneNumber with
      | some v => some v
      | none => prev.phoneNumber,
    avatar := match updates.avatar with
      | some v => some v
      | none => prev.avatar,
    theme := match updates.theme with
      | some v => some v
      | none => prev.theme,
    isAdmin := match updates.isAdmin with
      | some v => some v
      | none => prev.isAdmin }

/-- The `updateProfile` function.  Result components: the new state,
whether a remote call was performed, and the rethrown error (always
`none`: the catch block toasts and swallows).  With no loaded user it
returns immediately; on remote failure the user state is untouched; on
success the whole partial is merged locally and a truthy theme key
drives the dark-class side effect. -/
def updateProfile (remoteError : Option String) (updates : UserPatch) (s : AuthState) :
    AuthState × Bool × Option String :=
  match s.user with
  | none => (s, false, none)
  | some u =>
    match remoteError with
    | some e =>
      ({ s with toasts := s.toasts ++ [⟨"Profile update failed", e, some "destructive"⟩] },
        true, none)
    | none =>
      let s1 : AuthState := { s with user := some (mergeUser u updates) }
      let s2 : AuthState :=
        if truthyStr updates.theme then
          { s1 with darkClass := if updates.theme = some "dark" then true else false }
        else s1
      ({ s2 with
          toasts := s2.toasts ++
            [⟨"Profile updated", "Your profile has been updated successfully", none⟩] },
        true, none)

/-- The new theme computed by `toggleTheme`:
`user.theme === 'light' ? 'dark' : 'light'`. -/
def newThemeOf (u : User) : String :=
  if u.theme = some "light" then "dark" else "light"

/-- The `toggleTheme` function: a no-op with no loaded user; otherwise
the flipped theme is written remotely (outcome in `remoteError`), and on
success stored locally and applied to the document class; on failure a
toast is shown and the error swallowed. -/
def toggleTheme (remoteError : Option String) (s : AuthState) : AuthState :=
  match s.user with
  | none => s
  | some u =>
    match remoteError with
    | some e =>
      { s with toasts := s.toasts ++ [⟨"Theme toggle failed", e, some "destructive"⟩] }
    | none =>
      { s with
          user := some { u with theme := some (newThemeOf u) },
          darkClass := if newThemeOf u = "dark" then true else false }

/-- C7: a failed login leaves the user state null, ends with the loading
flag false, appends a destructive user-visible toast, and rethrows the
error to the caller. -/
theorem login_failure_spec (s : AuthState) (e : String) (h : s.user = none) :
    (login (some e) s).1.user = none
    ∧ (login (some e) s).1.isLoading = false
    ∧ Toast.mk "Login failed" e (some "destructive") ∈ (login (some e) s).1.toasts
    ∧ (login (some e) s).2 = some e := by
  refine ⟨?_, rfl, ?_, rfl⟩
  · simpa [login] using h
  · simp [login]

/-- Witness for C7 at a concrete unauthenticated state. -/
theorem login_failure_spec_witness :
    (login (some "Invalid login credentials") ⟨none, false, [], false⟩).1.user = none
    ∧ (login (some "Invalid login credentials") ⟨none, false, [], false⟩).1.isLoading = false
    ∧ Toast.mk "Login failed" "Invalid login credentials" (some "destructive")
        ∈ (login (some "Invalid login credentials") ⟨none, false, [], false⟩).1.toasts
    ∧ (login (some "Invalid login credentials") ⟨none, false, [], false⟩).2
        = some "Invalid login credentials" :=
  login_failure_spec ⟨none, false, [], false⟩ "Invalid login credentials" rfl

/-- C8: with no loaded profile, updateProfile performs no remote call and
returns the state unchanged; with a loaded profile, a failed remote
write leaves the user state (and the document class) untouched, appends
a destructive toast, and throws nothing. -/
theorem updateProfile_failure_atomic :
    (∀ (re : Option String) (updates : UserPatch) (s : AuthState),
        s.user = none → updateProfile re updates s = (s, false, none))
    ∧ (∀ (e : String) (updates : UserPatch) (s : AuthState) (u : User),
        s.user = some u →
        (updateProfile (some e) updates s).1.user = s.user
        ∧ (updateProfile (some e) updates s).1.darkClass = s.darkClass
        ∧ (updateProfile (some e) updates s).1.isLoading = s.isLoading
        ∧ Toast.mk "Profile update failed" e (some "destructive")
            ∈ (updateProfile (some e) updates s).1.toasts
        ∧ (updateProfile (some e) updates s).2.2 = none) := by
  constructor
  · intro re updates s h
    unfold updateProfile
    rw [h]
  · intro e updates s u h
    unfold updateProfile
    rw [h]
    exact ⟨rfl, rfl, rfl, by simp, rfl⟩

/-- Witness for C8: the no-user case returns the state unchanged with no
remote call, and the failure case keeps the loaded user intact. -/
theorem updateProfile_failure_atomic_witness :
    updateProfile none ⟨none, none, none, none, none, none, none, some "dark", none⟩
        ⟨none, true, [], false⟩
      = (⟨none, true, [], false⟩, false, none)
    ∧ (updateProfile (some "network down")
        ⟨none, none, none, none, none, none, none, some "dark", none⟩
        ⟨some ⟨"u1", "Asha", "a@x.in", "12", "R1", none, none, some "light", none⟩,
          false, [], false⟩).1.user
      = some ⟨"u1", "Asha", "a@x.in", "12", "R1", none, none, some "light", none⟩ :=
  ⟨updateProfile_failure_atomic.1 none
      ⟨none, none, none, none, none, none, none, some "dark", none⟩ ⟨none, true, [], false⟩ rfl,
   (updateProfile_failure_atomic.2 "network down"
      ⟨none, none, none, none, none, none, none, some "dark", none⟩
      ⟨some ⟨"u1", "Asha", "a@x.in", "12", "R1", none, none, some "light", none⟩,
        false, [], false⟩
      ⟨"u1", "Asha", "a@x.in", "12", "R1", none, none, some "light", none⟩ rfl).1⟩

/-- C9: toggleTheme is a no-op with no loaded profile; for a loaded
profile the computed theme is always exactly light or dark, light maps
to dark, dark maps to light, and on success the computed value is what
gets stored. -/
theorem toggleTheme_flip_spec :
    (∀ (re : Option String) (s : AuthState), s.user = none → toggleTheme re s = s)
    ∧ (∀ u : User, newThemeOf u = "light" ∨ newThemeOf u = "dark")
    ∧ (∀ u : User, u.theme = some "light" → newThemeOf u = "dark")
    ∧ (∀ u : User, u.theme = some "dark" → newThemeOf u = "light")
    ∧ (∀ (s : AuthState) (u : User), s.user = some u →
        (toggleTheme none s).user = some { u with theme := some (newThemeOf u) }) := by
  refine ⟨?_, ?_, ?_, ?_, ?_⟩
  · intro re s h
    unfold toggleTheme
    rw [h]
  · intro u
    unfold newThemeOf
    by_cases h : u.theme = some "light" <;> simp [h]
  · intro u h
    simp [newThemeOf, h]
  · intro u h
    simp [newThemeOf, h]
  · intro s u h
    unfold toggleTheme
    rw [h]

/-- Witness for C9: no-op on the empty state; a dark profile flips to
light, a light profile computes dark, and the flipped value is stored. -/
theorem toggleTheme_flip_spec_witness :
    toggleTheme (some "boom") ⟨none, false, [], false⟩ = ⟨none, false, [], false⟩
    ∧ (newThemeOf ⟨"u1", "Asha", "a@x.in", "12", "R1", none, none, some "dark", none⟩ = "light"
        ∨ newThemeOf ⟨"u1", "Asha", "a@x.in", "12", "R1", none, none, some "dark", none⟩ = "dark")
    ∧ newThemeOf ⟨"u1", "Asha", "a@x.in", "12", "R1", none, none, some "light", none⟩ = "dark"
    ∧ newThemeOf ⟨"u1", "Asha", "a@x.in", "12", "R1", none, none, some "dark", none⟩ = "light"
    ∧ (toggleTheme none
        ⟨some ⟨"u1", "Asha", "a@x.in", "12", "R1", none, none, some "light", none⟩,
          false, [], false⟩).user
      = some ⟨"u1", "Asha", "a@x.in", "12", "R1", none, none, some "dark", none⟩ :=
  ⟨toggleTheme_flip_spec.1 (some "boom") ⟨none, false, [], false⟩ rfl,
   toggleTheme_flip_spec.2.1 ⟨"u1", "Asha", "a@x.in", "12", "R1", none, none, some "dark", none⟩,
   toggleTheme_flip_spec.2.2.1 ⟨"u1", "Asha", "a@x.in", "12", "R1", none, none, some "light", none⟩
     rfl,
   toggleTheme_flip_spec.2.2.2.1 ⟨"u1", "Asha", "a@x.in", "12", "R1", none, none, some "dark", none⟩
     rfl,
   toggleTheme_flip_spec.2.2.2.2
     ⟨some ⟨"u1", "Asha", "a@x.in", "12", "R1", none, none, some "light", none⟩, false, [], false⟩
     ⟨"u1", "Asha", "a@x.in", "12", "R1", none, none, some "light", none⟩ rfl⟩

/-- C10: a successful updateProfile merges the entire partial into local
state, including fields the remote payload never carries (email, room
number, registration number, admin flag) and values the remote write
skips such as an empty-string name, so local state can hold changes that
were never persisted. -/
theorem updateProfile_local_merge_full (updates : UserPatch) (s : AuthState) (u : User)
    (h : s.user = some u) :
    (updateProfile none updates s).1.user = some (mergeUser u updates)
    ∧ (mergeUser u updates).email = updates.email.getD u.email
    ∧ (mergeUser u updates).roomNumber = updates.roomNumber.getD u.roomNumber
    ∧ (mergeUser u updates).regNumber = updates.regNumber.getD u.regNumber
    ∧ (updates.isAdmin = some true → (mergeUser u updates).isAdmin = some true)
    ∧ (updates.name = some "" →
        (profileRowOf updates).name = none ∧ (mergeUser u updates).name = "") := by
  refine ⟨?_, rfl, rfl, rfl, ?_, ?_⟩
  · unfold updateProfile
    rw [h]
    by_cases ht : truthyStr updates.theme = true <;> simp [ht]
  · intro ha
    simp [mergeUser, ha]
  · intro hn
    constructor
    · simp [profileRowOf, truthyStr, hn]
    · simp [mergeUser, hn]

/-- Witness for C10: a partial with a new email, a changed admin flag
and an empty name is fully merged locally while the remote payload
omits the name. -/
theorem updateProfile_local_merge_full_witness :
    (updateProfile none
        ⟨none, some "", some "new@x.in", none, none, none, none, none, some true⟩
        ⟨some ⟨"u1", "Asha", "a@x.in", "12", "R1", none, none, some "light", none⟩,
          false, [], false⟩).1.user
      = some (mergeUser ⟨"u1", "Asha", "a@x.in", "12", "R1", none, none, some "light", none⟩
          ⟨none, some "", some "new@x.in", none, none, none, none, none, some true⟩)
    ∧ (mergeUser ⟨"u1", "Asha", "a@x.in", "12", "R1", none, none, some "light", none⟩
        ⟨none, some "", some "new@x.in", none, none, none, none, none, some true⟩).email
      = (some "new@x.in").getD "a@x.in"
    ∧ (profileRowOf ⟨none, some "", some "new@x.in", none, none, none, none, none, some true⟩).name
        = none
    ∧ (mergeUser ⟨"u1", "Asha", "a@x.in", "12", "R1", none, none, some "light", none⟩
        ⟨none, some "", some "new@x.in", none, none, none, none, none, some true⟩).name = "" :=
  ⟨(updateProfile_local_merge_full
      ⟨none, some "", some "new@x.in", none, none, none, none, none, some true⟩
      ⟨some ⟨"u1", "Asha", "a@x.in", "12", "R1", none, none, some "light", none⟩,
        false, [], false⟩
      ⟨"u1", "Asha", "a@x.in", "12", "R1", none, none, some "light", none⟩ rfl).1,
   (updateProfile_local_merge_full
      ⟨none, some "", some "new@x.in", none, none, none, none, none, some true⟩
      ⟨some ⟨"u1", "Asha", "a@x.in", "12", "R1", none, none, some "light", none⟩,
        false, [], false⟩
      ⟨"u1", "Asha", "a@x.in", "12", "R1", none, none, some "light", none⟩ rfl).2.1,
   ((updateProfile_local_merge_full
      ⟨none, some "", some "new@x.in", none, none, none, none, none, some true⟩
      ⟨some ⟨"u1", "Asha", "a@x.in", "12", "R1", none, none, some "light", none⟩,
        false, [], false⟩
      ⟨"u1", "Asha", "a@x.in", "12", "R1", none, none, some "light", none⟩ rfl).2.2.2.2.2
      rfl).1,
   ((updateProfile_local_merge_full
      ⟨none, some "", some "new@x.in", none, none, none, none, none, some true⟩
      ⟨some ⟨"u1", "Asha", "a@x.in", "12", "R1", none, none, some "light", none⟩,
        false, [], false⟩
      ⟨"u1", "Asha", "a@x.in", "12", "R1", none, none, some "light", none⟩ rfl).2.2.2.2.2
      rfl).2⟩

end HostelChowHub
